import Mathlib

/-!
# Verification of the MR60BHXX mmWave sensor driver core

Shallow embedding of the frame protocol engine of the `seeed_mr60bha2`
Python package: checksum computation, frame encoding (`_packet_frame`),
frame decoding and dispatch (`_process_frame`, `process_queued_frames`),
the byte-stream resynchronising framer (`fetch`), the bounded frame queue,
and the consume-once measurement store of the `SEEED_MR60BHA2` subclass
(`handle_type`, `get_heart_rate`, `get_breath_rate`,
`get_heart_breath_phases`, `get_distance`, `get_all_data`).

Bytes are modelled as `Nat` values (< 256 on real streams); IEEE-754
float payload fields are represented by their little-endian 32-bit bit
patterns, which is faithful for all store/flag/consumption properties
proved here (the driver stores and returns the decoded values opaquely).
-/

namespace MmWave

/-! ## Frame structure constants (mmwave_base.py, module level) -/

def SOF_BYTE : Nat := 0x01
def SIZE_FRAME_HEADER : Nat := 8
def SIZE_DATA_CKSUM : Nat := 1
def MAX_QUEUE_SIZE : Nat := 120
def MAX_FRAME_DATA_SIZE : Nat := 30

/-! ## Frame codec (mmwave_base.py) -/

/-- Embeds `_calculate_checksum`: inverted XOR of all bytes, masked to 8 bits
(`(~checksum) & 0xFF` in Python equals flipping the low 8 bits). -/
def calculate_checksum (data : List Nat) : Nat :=
  ((data.foldl (fun c b => c ^^^ b) 0) &&& 0xFF) ^^^ 0xFF

/-- Embeds `struct.pack(">H", v)`: big-endian 16-bit encoding, two bytes. -/
def pack_u16_be (v : Nat) : List Nat := [v / 256 % 256, v % 256]

/-- Embeds `struct.unpack(">H", [hi, lo])`: big-endian 16-bit decoding. -/
def unpack_u16_be (hi lo : Nat) : Nat := hi * 256 + lo

/-- Embeds `_extract_uint32` / `struct.unpack("<I", data[:4])`: little-endian
32-bit decoding; also the bit pattern read by `_extract_float`. -/
def extract_u32_le (data : List Nat) : Nat :=
  data.getD 0 0 + data.getD 1 0 * 256 + data.getD 2 0 * 65536 +
    data.getD 3 0 * 16777216

/-- Embeds `_packet_frame`: build a complete outgoing frame
`[SOF][ID_H][ID_L][LEN_H][LEN_L][TYPE_H][TYPE_L][HEAD_CKSUM][DATA...][DATA_CKSUM]`
and advance the frame id (`self._frame_id = ((self._frame_id + 1) & 0xFFFF) or 0x8000`).
Returns the frame bytes and the new frame id. A `None`/empty payload
(Python truthiness `if data:`) omits both the payload and its checksum. -/
def packet_frame (frame_id : Nat) (frame_type : Nat) (data : List Nat) :
    List Nat × Nat :=
  let header := SOF_BYTE :: (pack_u16_be frame_id ++ pack_u16_be data.length ++
    pack_u16_be frame_type)
  let head_checksum := calculate_checksum header
  let frame := if data.length > 0 then
      header ++ [head_checksum] ++ data ++ [calculate_checksum data]
    else header ++ [head_checksum]
  let masked := (frame_id + 1) &&& 0xFFFF
  (frame, if masked = 0 then 0x8000 else masked)

/-- The frame-id advance performed by `_packet_frame`
(`((id + 1) & 0xFFFF) or 0x8000`). -/
def next_frame_id (frame_id : Nat) : Nat :=
  let masked := (frame_id + 1) &&& 0xFFFF
  if masked = 0 then 0x8000 else masked

/-- The outgoing frame id after `n` frames have been built, starting from
the initial value `0x8000` set in `__init__`. -/
def frame_id_after (n : Nat) : Nat := Nat.iterate next_frame_id n 0x8000

/-! ## Frame dispatch (`_process_frame`) -/

/-- Result of `_process_frame`: either a normal Boolean return together
with the (possibly updated) store, or a raised `MmWaveChecksumError`
carrying the store as it stood at the raise point. -/
inductive ProcResult (S : Type) where
  | ok : Bool → S → ProcResult S
  | checksumError : S → ProcResult S
deriving Repr, DecidableEq

/-- The store carried by a `ProcResult`. -/
def ProcResult.store {S : Type} : ProcResult S → S
  | .ok _ s => s
  | .checksumError s => s

/-- Embeds `_process_frame`: parse the header, validate SOF, total length,
header checksum and (when `Length > 0`) payload checksum, apply the
`expected_type` filter, and finally dispatch to `handle_type`. Checksum
mismatches raise (`checksumError`); every other rejection returns `False`.
`handle` abstracts the subclass's `handle_type` acting on store `S`. -/
def process_frame {S : Type} (handle : Nat → List Nat → S → Bool × S)
    (expected_type : Option Nat) (s : S) (frame : List Nat) : ProcResult S :=
  if frame.length < SIZE_FRAME_HEADER then .ok false s
  else
    let sof := frame.getD 0 0
    let data_len := unpack_u16_be (frame.getD 3 0) (frame.getD 4 0)
    let frame_type := unpack_u16_be (frame.getD 5 0) (frame.getD 6 0)
    let head_checksum := frame.getD 7 0
    if sof ≠ SOF_BYTE then .ok false s
    else if frame.length ≠ SIZE_FRAME_HEADER + data_len + SIZE_DATA_CKSUM then
      .ok false s
    else if calculate_checksum (frame.take 7) ≠ head_checksum then
      .checksumError s
    else
      let data := if data_len > 0 then (frame.drop SIZE_FRAME_HEADER).take data_len
        else []
      if data_len > 0 ∧
          calculate_checksum data ≠ frame.getD (SIZE_FRAME_HEADER + data_len) 0 then
        .checksumError s
      else if expected_type.isSome ∧ frame_type ≠ expected_type.getD 0 then
        .ok false s
      else
        let r := handle frame_type data s
        .ok r.1 r.2

/-- The `(type, payload)` pair `_process_frame` hands to `handle_type`,
when it reaches the dispatch step: the decoder half of the round trip. -/
def decode_frame (frame : List Nat) : Option (Nat × List Nat) :=
  (process_frame (fun t d _ => (true, some (t, d))) none none frame).store

/-! ## Measurement store (mr60bha2.py, SEEED_MR60BHA2) -/

/-- Frame type codes (`HeartBreathType`). -/
def HEART_BREATH_PHASE : Nat := 0x0A13
def BREATH_RATE : Nat := 0x0A14
def HEART_RATE : Nat := 0x0A15
def HEART_BREATH_DISTANCE : Nat := 0x0A16

/-- Embeds the `HeartBreathPhases` dataclass; float fields as LE bit patterns. -/
structure HeartBreathPhases where
  total_phase : Nat
  breath_phase : Nat
  heart_phase : Nat
deriving Repr, DecidableEq

/-- The measurement fields and validity flags set up in
`SEEED_MR60BHA2.__init__` (values start as `None`, flags as `False`). -/
structure Store where
  heart_breath_phases : Option HeartBreathPhases := none
  breath_rate : Option Nat := none
  heart_rate : Option Nat := none
  range_flag : Option Nat := none
  range : Option Nat := none
  is_heart_breath_phase_valid : Bool := false
  is_breath_rate_valid : Bool := false
  is_heart_rate_valid : Bool := false
  is_distance_valid : Bool := false
deriving Repr, DecidableEq

/-- The store as created by `__init__`. -/
def initStore : Store := {}

/-- Python truthiness of `self._range_flag` (`None` and `0` are falsy). -/
def range_flag_truthy (s : Store) : Bool :=
  match s.range_flag with
  | none => false
  | some v => v ≠ 0

/-- Embeds `SEEED_MR60BHA2.handle_type`: decode the payload by frame type and
update the corresponding slot and validity flag; unknown type codes and
payloads shorter than the type's minimum return `False` without mutation. -/
def handle_type (frame_type : Nat) (data : List Nat) (s : Store) : Bool × Store :=
  if frame_type = HEART_BREATH_PHASE then
    if data.length < 12 then (false, s)
    else (true, { s with
      heart_breath_phases := some
        { total_phase := extract_u32_le (data.take 4)
          breath_phase := extract_u32_le ((data.drop 4).take 4)
          heart_phase := extract_u32_le ((data.drop 8).take 4) }
      is_heart_breath_phase_valid := true })
  else if frame_type = BREATH_RATE then
    if data.length < 4 then (false, s)
    else (true, { s with
      breath_rate := some (extract_u32_le (data.take 4))
      is_breath_rate_valid := true })
  else if frame_type = HEART_RATE then
    if data.length < 4 then (false, s)
    else (true, { s with
      heart_rate := some (extract_u32_le (data.take 4))
      is_heart_rate_valid := true })
  else if frame_type = HEART_BREATH_DISTANCE then
    if data.length < 8 then (false, s)
    else (true, { s with
      range_flag := some (extract_u32_le (data.take 4))
      range := some (extract_u32_le ((data.drop 4).take 4))
      is_distance_valid := true })
  else (false, s)

/-- Embeds `get_heart_breath_phases`: consume-once read of the phases slot. -/
def get_heart_breath_phases (s : Store) : Option HeartBreathPhases × Store :=
  if !s.is_heart_breath_phase_valid then (none, s)
  else (s.heart_breath_phases, { s with is_heart_breath_phase_valid := false })

/-- Embeds `get_breath_rate`: consume-once read of the breath-rate slot. -/
def get_breath_rate (s : Store) : Option Nat × Store :=
  if !s.is_breath_rate_valid then (none, s)
  else (s.breath_rate, { s with is_breath_rate_valid := false })

/-- Embeds `get_heart_rate`: consume-once read of the heart-rate slot. -/
def get_heart_rate (s : Store) : Option Nat × Store :=
  if !s.is_heart_rate_valid then (none, s)
  else (s.heart_rate, { s with is_heart_rate_valid := false })

/-- Embeds `get_distance`: returns `None` without clearing when the distance
slot is invalid or `self._range_flag` is falsy; otherwise clears the
flag and returns the stored range. -/
def get_distance (s : Store) : Option Nat × Store :=
  if !s.is_distance_valid || !range_flag_truthy s then (none, s)
  else (s.range, { s with is_distance_valid := false })

/-- The dictionary returned by `get_all_data`. -/
structure AllData where
  heart_rate : Option Nat
  heart_rate_valid : Bool
  breath_rate : Option Nat
  breath_rate_valid : Bool
  phases : Option HeartBreathPhases
  phases_valid : Bool
  distance : Option Nat
  distance_valid : Bool
deriving Repr, DecidableEq

/-- Embeds `get_all_data`: non-consuming snapshot; the method body only reads
attributes, so the store comes back unchanged. -/
def get_all_data (s : Store) : AllData × Store :=
  ({ heart_rate := s.heart_rate
     heart_rate_valid := s.is_heart_rate_valid
     breath_rate := s.breath_rate
     breath_rate_valid := s.is_breath_rate_valid
     phases := s.heart_breath_phases
     phases_valid := s.is_heart_breath_phase_valid
     distance := s.range
     distance_valid := s.is_distance_valid && range_flag_truthy s }, s)

/-! ## Frame queue and stream framer (`fetch`) -/

/-- Embeds `deque(maxlen=MAX_QUEUE_SIZE).append`: FIFO append that drops the
oldest entry when the queue is full (head of the list is the oldest). -/
def enqueue (q : List (List Nat)) (f : List Nat) : List (List Nat) :=
  let q2 := q ++ [f]
  if MAX_QUEUE_SIZE < q2.length then q2.drop (q2.length - MAX_QUEUE_SIZE) else q2

/-- The framer state local to one `fetch` call (`in_frame`,
`frame_buffer`) together with the persistent frame queue.
`in_frame = false` is the `SeekingStart` state of the spec;
`in_frame = true` is `Accumulating`. -/
structure FetchState where
  in_frame : Bool := false
  frame_buffer : List Nat := []
  queue : List (List Nat) := []
deriving Repr, DecidableEq

/-- One iteration of the `fetch` read loop on a single received byte:
seek the SOF marker, accumulate, reject oversized declared lengths
(false start markers), and on a complete buffer queue it iff the header
checksum over the first 7 bytes matches byte 7. -/
def fetch_step (st : FetchState) (b : Nat) : FetchState :=
  if st.in_frame then
    let buf := st.frame_buffer ++ [b]
    if SIZE_FRAME_HEADER ≤ buf.length then
      let data_len := unpack_u16_be (buf.getD 3 0) (buf.getD 4 0)
      if MAX_FRAME_DATA_SIZE < data_len then
        { st with in_frame := false, frame_buffer := [] }
      else
        let expected_len := SIZE_FRAME_HEADER + data_len + SIZE_DATA_CKSUM
        if buf.length = expected_len then
          if calculate_checksum (buf.take 7) = buf.getD 7 0 then
            { in_frame := false, frame_buffer := [], queue := enqueue st.queue buf }
          else
            { st with in_frame := false, frame_buffer := [] }
        else { st with frame_buffer := buf }
    else { st with frame_buffer := buf }
  else
    if b = SOF_BYTE then { st with in_frame := true, frame_buffer := [b] }
    else st

/-- The `fetch` read loop over a finite sequence of received bytes. -/
def fetch_bytes (st : FetchState) (input : List Nat) : FetchState :=
  input.foldl fetch_step st

/-- Models `self._serial`: `none` models a never-opened port, `some o` a port
object with `is_open = o`. -/
def serial_ready (serial : Option Bool) : Bool :=
  match serial with
  | none => false
  | some is_open => is_open

/-- Embeds `fetch`: returns immediately when the serial connection is absent or
closed; otherwise runs the read loop (with a fresh local framer state)
over the bytes the transport delivers within the deadline. -/
def fetch (serial : Option Bool) (input : List Nat)
    (queue : List (List Nat)) : List (List Nat) :=
  if !serial_ready serial then queue
  else (fetch_bytes { in_frame := false, frame_buffer := [], queue := queue }
    input).queue

/-- Embeds `_send_frame`: it returns `False` when the serial connection is absent or
closed; otherwise reports whether the transport wrote the whole frame. -/
def send_frame (serial : Option Bool) (frame : List Nat)
    (bytes_sent : Nat) : Bool :=
  if !serial_ready serial then false
  else bytes_sent = frame.length

/-! ## Dispatch loop (`process_queued_frames`) -/

/-- Embeds `process_queued_frames`: pop frames in FIFO order, dispatch each
through `_process_frame`, swallow `MmWaveChecksumError` and continue;
returns `True` iff at least one frame was processed successfully. -/
def process_queued_frames (expected_type : Option Nat) (s : Store) :
    List (List Nat) → Bool × Store
  | [] => (false, s)
  | f :: rest =>
    match process_frame handle_type expected_type s f with
    | .ok b s2 =>
      let r := process_queued_frames expected_type s2 rest
      (b || r.1, r.2)
    | .checksumError s2 => process_queued_frames expected_type s2 rest

/-- Iterates `get_all_data` `n` times (each call discards the snapshot
and keeps the store it returns). -/
def snapshotN (n : Nat) (s : Store) : Store :=
  Nat.iterate (fun st => (get_all_data st).2) n s

/-! ## Helper lemmas -/

theorem land_ffff (n : Nat) : n &&& 65535 = n % 65536 := by
  have h := Nat.and_pow_two_sub_one_eq_mod n 16
  norm_num at h
  exact h

theorem next_frame_id_range {id : Nat} (h1 : 0x8000 ≤ id) (h2 : id ≤ 0xFFFF) :
    0x8000 ≤ next_frame_id id ∧ next_frame_id id ≤ 0xFFFF := by
  simp only [next_frame_id, land_ffff]
  split <;> omega

theorem frame_id_after_range (n : Nat) :
    0x8000 ≤ frame_id_after n ∧ frame_id_after n ≤ 0xFFFF := by
  induction n with
  | zero => exact ⟨Nat.le_refl _, by norm_num [frame_id_after]⟩
  | succ k ih =>
    have h : frame_id_after (k + 1) = next_frame_id (frame_id_after k) := by
      simp [frame_id_after, Function.iterate_succ_apply']
    rw [h]
    exact next_frame_id_range ih.1 ih.2

theorem packet_frame_id_bytes (id t : Nat) (d : List Nat) (h : id ≤ 0xFFFF) :
    unpack_u16_be ((packet_frame id t d).1.getD 1 0)
      ((packet_frame id t d).1.getD 2 0) = id := by
  simp only [packet_frame, pack_u16_be, unpack_u16_be]
  split <;> simp <;> omega

/-! ## Claim theorems -/

/-- C6: the outgoing frame ID is a 16-bit counter starting at 0x8000,
advanced once per frame built by `_packet_frame`; the wraparound of
0xFFFF lands on 0x8000 instead of 0, so the counter stays in
[0x8000, 0xFFFF] and the ID bytes written into the frame header (bytes
1 and 2, big-endian) never encode 0. -/
theorem frame_id_counter_never_zero (n t : Nat) (d : List Nat) :
    0x8000 ≤ frame_id_after n ∧ frame_id_after n ≤ 0xFFFF ∧
    frame_id_after n ≠ 0 ∧
    unpack_u16_be ((packet_frame (frame_id_after n) t d).1.getD 1 0)
      ((packet_frame (frame_id_after n) t d).1.getD 2 0) = frame_id_after n ∧
    (packet_frame (frame_id_after n) t d).2 = frame_id_after (n + 1) := by
  obtain ⟨h1, h2⟩ := frame_id_after_range n
  refine ⟨h1, h2, by omega, packet_frame_id_bytes _ t d h2, ?_⟩
  simp [packet_frame, next_frame_id, frame_id_after, Function.iterate_succ_apply']

/-- C9: `get_all_data` is a pure snapshot — it reads every slot and
flag but mutates nothing, so any number of snapshot calls leaves the
store, and hence the result of every subsequent consuming getter,
exactly as before. -/
theorem snapshot_non_interference (n : Nat) (s : Store) :
    snapshotN n s = s ∧
    get_heart_rate (snapshotN n s) = get_heart_rate s ∧
    get_breath_rate (snapshotN n s) = get_breath_rate s ∧
    get_heart_breath_phases (snapshotN n s) = get_heart_breath_phases s ∧
    get_distance (snapshotN n s) = get_distance s ∧
    (get_all_data s).2 = s := by
  have h : snapshotN n s = s := Function.iterate_fixed rfl n
  rw [h]
  exact ⟨rfl, rfl, rfl, rfl, rfl, rfl⟩

/-- C10: with the serial connection absent or closed, `fetch` returns
immediately leaving the frame queue untouched, and `_send_frame`
returns `False`; neither raises. -/
theorem closed_port_safe (serial : Option Bool) (input : List Nat)
    (queue : List (List Nat)) (frame : List Nat) (bytes_sent : Nat)
    (h : serial_ready serial = false) :
    fetch serial input queue = queue ∧
    send_frame serial frame bytes_sent = false := by
  constructor <;> simp [fetch, send_frame, h]

/-- Witness for `closed_port_safe` at a concrete closed port. -/
theorem closed_port_safe_witness :
    fetch none [5, 1, 2] [[9]] = [[9]] ∧ send_frame none [1, 2] 2 = false :=
  closed_port_safe none [5, 1, 2] [[9]] [1, 2] 2 rfl

/-- C3: `get_distance` returns `None` without clearing the validity
flag whenever the flag is unset or the stored `range_flag` is falsy
(0 or still `None`); it clears the flag and returns the stored range
exactly when the flag is set and `range_flag` is nonzero. A Distance
frame whose payload decodes to `range_flag = 0` therefore leaves
`get_distance` returning `None` with the store unchanged — forever,
since the state is a fixpoint — until a later frame stores a nonzero
flag. -/
theorem get_distance_gating (s : Store) (data : List Nat) :
    (s.is_distance_valid = false ∨ range_flag_truthy s = false →
      get_distance s = (none, s)) ∧
    (s.is_distance_valid = true → range_flag_truthy s = true →
      get_distance s = (s.range, { s with is_distance_valid := false })) ∧
    (8 ≤ data.length → extract_u32_le (data.take 4) = 0 →
      (handle_type HEART_BREATH_DISTANCE data s).1 = true ∧
      get_distance (handle_type HEART_BREATH_DISTANCE data s).2 =
        (none, (handle_type HEART_BREATH_DISTANCE data s).2)) := by
  refine ⟨?_, ?_, ?_⟩
  · rintro (h | h) <;> simp [get_distance, h]
  · intro h1 h2
    simp [get_distance, h1, h2]
  · intro hlen hflag
    have hne : ¬data.length < 8 := by omega
    have hht : handle_type HEART_BREATH_DISTANCE data s =
        (true, { s with
          range_flag := some (extract_u32_le (data.take 4))
          range := some (extract_u32_le ((data.drop 4).take 4))
          is_distance_valid := true }) := by
      simp [handle_type, HEART_BREATH_DISTANCE, HEART_BREATH_PHASE,
        BREATH_RATE, HEART_RATE, hne]
    rw [hht]
    exact ⟨rfl, by simp [get_distance, range_flag_truthy, hflag]⟩

/-- A store holding a valid Distance slot whose `range_flag` is 0. -/
def zeroFlagStore : Store :=
  { range_flag := some 0, range := some 7, is_distance_valid := true }

/-- Witness for `get_distance_gating`: a store holding a valid Distance
slot with `range_flag = 0`. -/
theorem get_distance_gating_witness :
    get_distance zeroFlagStore = (none, zeroFlagStore) :=
  (get_distance_gating zeroFlagStore []).1 (Or.inr (by decide))

/-- C7: dispatching one HeartRate frame makes the first
`get_heart_rate` call return the decoded value and clear the flag, so
the post-read store is a fixpoint on which every further call returns
`None` until another frame arrives; likewise for `get_breath_rate` and
`get_heart_breath_phases`. -/
theorem consume_once_getters (s : Store) (hr br ph : List Nat)
    (hhr : 4 ≤ hr.length) (hbr : 4 ≤ br.length) (hph : 12 ≤ ph.length) :
    (get_heart_rate (handle_type HEART_RATE hr s).2 =
      (some (extract_u32_le (hr.take 4)),
       { (handle_type HEART_RATE hr s).2 with is_heart_rate_valid := false }) ∧
     ∀ s2, get_heart_rate (handle_type HEART_RATE hr s).2 = (some (extract_u32_le (hr.take 4)), s2) →
       get_heart_rate s2 = (none, s2)) ∧
    (get_breath_rate (handle_type BREATH_RATE br s).2 =
      (some (extract_u32_le (br.take 4)),
       { (handle_type BREATH_RATE br s).2 with is_breath_rate_valid := false }) ∧
     ∀ s2, get_breath_rate (handle_type BREATH_RATE br s).2 = (some (extract_u32_le (br.take 4)), s2) →
       get_breath_rate s2 = (none, s2)) ∧
    (get_heart_breath_phases (handle_type HEART_BREATH_PHASE ph s).2 =
      (some { total_phase := extract_u32_le (ph.take 4)
              breath_phase := extract_u32_le ((ph.drop 4).take 4)
              heart_phase := extract_u32_le ((ph.drop 8).take 4) },
       { (handle_type HEART_BREATH_PHASE ph s).2 with
         is_heart_breath_phase_valid := false }) ∧
     ∀ s2 v, get_heart_breath_phases (handle_type HEART_BREATH_PHASE ph s).2 = (some v, s2) →
       get_heart_breath_phases s2 = (none, s2)) := by
  have hhr' : ¬hr.length < 4 := by omega
  have hbr' : ¬br.length < 4 := by omega
  have hph' : ¬ph.length < 12 := by omega
  refine ⟨⟨?_, ?_⟩, ⟨?_, ?_⟩, ⟨?_, ?_⟩⟩
  · simp [handle_type, HEART_RATE, HEART_BREATH_PHASE, BREATH_RATE, hhr',
      get_heart_rate]
  · intro s2 h
    have : s2 = { (handle_type HEART_RATE hr s).2 with is_heart_rate_valid := false } := by
      have h2 : get_heart_rate (handle_type HEART_RATE hr s).2 =
          (some (extract_u32_le (hr.take 4)),
           { (handle_type HEART_RATE hr s).2 with is_heart_rate_valid := false }) := by
        simp [handle_type, HEART_RATE, HEART_BREATH_PHASE, BREATH_RATE, hhr',
          get_heart_rate]
      rw [h2] at h
      exact (Prod.mk.injEq _ _ _ _ ▸ h).2.symm ▸ rfl
    rw [this]
    simp [get_heart_rate]
  · simp [handle_type, BREATH_RATE, HEART_BREATH_PHASE, HEART_RATE, hbr',
      get_breath_rate]
  · intro s2 h
    have h2 : get_breath_rate (handle_type BREATH_RATE br s).2 =
        (some (extract_u32_le (br.take 4)),
         { (handle_type BREATH_RATE br s).2 with is_breath_rate_valid := false }) := by
      simp [handle_type, BREATH_RATE, HEART_BREATH_PHASE, HEART_RATE, hbr',
        get_breath_rate]
    rw [h2] at h
    obtain ⟨-, h⟩ := Prod.mk.injEq _ _ _ _ ▸ h
    rw [← h]
    simp [get_breath_rate]
  · simp [handle_type, HEART_BREATH_PHASE, hph', get_heart_breath_phases]
  · intro s2 v h
    have h2 : get_heart_breath_phases (handle_type HEART_BREATH_PHASE ph s).2 =
        (some { total_phase := extract_u32_le (ph.take 4)
                breath_phase := extract_u32_le ((ph.drop 4).take 4)
                heart_phase := extract_u32_le ((ph.drop 8).take 4) },
         { (handle_type HEART_BREATH_PHASE ph s).2 with
           is_heart_breath_phase_valid := false }) := by
      simp [handle_type, HEART_BREATH_PHASE, hph', get_heart_breath_phases]
    rw [h2] at h
    obtain ⟨-, h⟩ := Prod.mk.injEq _ _ _ _ ▸ h
    rw [← h]
    simp [get_heart_breath_phases]

/-- Witness for `consume_once_getters` at concrete 4- and 12-byte
payloads on the initial store. -/
theorem consume_once_getters_witness :
    get_heart_rate (handle_type HEART_RATE [0, 0, 142, 66] initStore).2 =
      (some (extract_u32_le ([0, 0, 142, 66].take 4)),
       { (handle_type HEART_RATE [0, 0, 142, 66] initStore).2 with
         is_heart_rate_valid := false }) :=
  (consume_once_getters initStore [0, 0, 142, 66] [0, 0, 142, 66]
    [1, 2, 3, 4, 5, 6, 7, 8, 9, 10, 11, 12] (by decide) (by decide)
    (by decide)).1.1

/-- The frame type a received frame declares (header bytes 5 and 6,
big-endian), as read by `_process_frame`. -/
def frame_type_of (frame : List Nat) : Nat :=
  unpack_u16_be (frame.getD 5 0) (frame.getD 6 0)

/-- A concrete HeartRate frame: type 0x0A15, payload the little-endian
bytes of the float 71.0 (bit pattern 0x428E0000). -/
def hrFrame : List Nat := (packet_frame 0x8000 HEART_RATE [0, 0, 142, 66]).1

/-- A copy of `hrFrame` with its payload checksum byte corrupted (52 instead of
the correct 51). -/
def badChecksumFrame : List Nat :=
  [1, 128, 0, 0, 4, 10, 21, 101, 0, 0, 142, 66, 52]

theorem foldl_enqueue_drop (fs : List (List Nat)) :
    ∀ q : List (List Nat), q.length ≤ MAX_QUEUE_SIZE →
    List.foldl enqueue q fs =
      (q ++ fs).drop (q.length + fs.length - MAX_QUEUE_SIZE) := by
  induction fs with
  | nil =>
    intro q hq
    simp [Nat.sub_eq_zero_of_le hq]
  | cons f fs ih =>
    intro q hq
    simp only [List.foldl_cons]
    have hlen1 : (q ++ [f]).length = q.length + 1 := by simp
    by_cases h : q.length = MAX_QUEUE_SIZE
    · have hc : MAX_QUEUE_SIZE < (q ++ [f]).length := by rw [hlen1]; omega
      have hidx1 : (q ++ [f]).length - MAX_QUEUE_SIZE = 1 := by
        rw [hlen1]; omega
      have he : enqueue q f = (q ++ [f]).drop 1 := by
        simp only [enqueue, if_pos hc, hidx1]
      rw [he, ih _ (by rw [List.length_drop, hlen1]; omega)]
      have hd : (q ++ [f]).drop 1 ++ fs = ((q ++ [f]) ++ fs).drop 1 :=
        (List.drop_append_of_le_length (by rw [hlen1]; omega)).symm
      rw [hd, List.drop_drop]
      have hl : ((q ++ [f]).drop 1).length = MAX_QUEUE_SIZE := by
        rw [List.length_drop, hlen1]; omega
      rw [hl, List.append_assoc, List.singleton_append]
      have hidx2 : 1 + (MAX_QUEUE_SIZE + fs.length - MAX_QUEUE_SIZE) =
          q.length + (f :: fs).length - MAX_QUEUE_SIZE := by
        simp only [List.length_cons]; omega
      rw [hidx2]
    · have hlt : ¬MAX_QUEUE_SIZE < (q ++ [f]).length := by
        rw [hlen1]; omega
      have he : enqueue q f = q ++ [f] := by
        simp only [enqueue, if_neg hlt]
      rw [he, ih _ (by rw [hlen1]; omega)]
      rw [List.append_assoc, List.singleton_append]
      have hidx3 : (q ++ [f]).length + fs.length - MAX_QUEUE_SIZE =
          q.length + (f :: fs).length - MAX_QUEUE_SIZE := by
        rw [hlen1]
        simp only [List.length_cons]
        omega
      rw [hidx3]

/-- C8: the frame queue is a drop-oldest FIFO of capacity 120
(`MAX_QUEUE_SIZE`): starting from any in-capacity queue, enqueuing 121
or more frames without dispatching retains exactly the 120 most
recently enqueued frames, in FIFO order. -/
theorem queue_overflow_drops_oldest (q fs : List (List Nat))
    (hq : q.length ≤ MAX_QUEUE_SIZE) (hfs : MAX_QUEUE_SIZE + 1 ≤ fs.length) :
    List.foldl enqueue q fs = fs.drop (fs.length - MAX_QUEUE_SIZE) ∧
    (List.foldl enqueue q fs).length = MAX_QUEUE_SIZE := by
  have h := foldl_enqueue_drop fs q hq
  have hidx : q.length + fs.length - MAX_QUEUE_SIZE =
      q.length + (fs.length - MAX_QUEUE_SIZE) := by omega
  rw [h, hidx, List.drop_append]
  refine ⟨rfl, ?_⟩
  simp [List.length_drop]
  omega

/-- Witness for `queue_overflow_drops_oldest`: 121 frames into an empty
queue keep the last 120. -/
theorem queue_overflow_witness :
    List.foldl enqueue [] (List.replicate 121 [7]) =
      (List.replicate 121 [7]).drop 1 := by
  simpa using
    (queue_overflow_drops_oldest [] (List.replicate 121 [7]) (by simp)
      (by simp [MAX_QUEUE_SIZE])).1

theorem process_frame_checksumError_store {S : Type}
    (handle : Nat → List Nat → S → Bool × S) (et : Option Nat) (s s' : S)
    (f : List Nat) (h : process_frame handle et s f = .checksumError s') :
    s' = s := by
  simp only [process_frame] at h
  repeat' split at h
  all_goals simp_all

/-- C5: a queued frame that fails header or payload checksum validation
raises `MmWaveChecksumError` with the store untouched, and
`process_queued_frames` swallows exactly that frame and continues with
the rest of the queue — the dispatch of the remaining frames is
unaffected and no exception escapes. -/
theorem checksum_fault_skips_single_frame (et : Option Nat) (s s' : Store)
    (f : List Nat) (rest : List (List Nat))
    (h : process_frame handle_type et s f = .checksumError s') :
    s' = s ∧
    process_queued_frames et s (f :: rest) = process_queued_frames et s rest := by
  have hs := process_frame_checksumError_store handle_type et s s' f h
  refine ⟨hs, ?_⟩
  simp only [process_queued_frames, h]
  rw [hs]

/-- Witness for `checksum_fault_skips_single_frame`: a frame with a
corrupted payload checksum ahead of a valid HeartRate frame. -/
theorem checksum_fault_witness :
    process_queued_frames none initStore (badChecksumFrame :: [hrFrame]) =
      process_queued_frames none initStore [hrFrame] :=
  (checksum_fault_skips_single_frame none initStore initStore
    badChecksumFrame [hrFrame] (by decide)).2

/-- C1 counterexample: a HeartRate frame processed with
`expected_type = BREATH_RATE` leaves the Measurement Store untouched,
while the same frame processed with no filter updates it — contradicting
the claim that the filter changes only the boolean result of
processing, never which frames mutate the store. -/
theorem filter_blocks_store_update_cex :
    (process_frame handle_type (some BREATH_RATE) initStore hrFrame).store =
      initStore ∧
    (process_frame handle_type none initStore hrFrame).store ≠ initStore := by
  decide

/-- C1 (amended): in `_process_frame` the `expected_type` filter is
checked *before* `handle_type` is invoked, so a successfully decoded
frame whose type differs from the filter returns `False` with the store
unmutated; only frames matching the filter (or processed with no
filter) reach the store, and on a matching type the filtered run
coincides with the unfiltered one. -/
theorem filter_gates_store_update (et : Nat) (s : Store) (frame : List Nat) :
    (frame_type_of frame ≠ et →
      (process_frame handle_type (some et) s frame).store = s ∧
      ∀ b s2, process_frame handle_type (some et) s frame = .ok b s2 →
        b = false) ∧
    (frame_type_of frame = et →
      process_frame handle_type (some et) s frame =
        process_frame handle_type none s frame) := by
  constructor
  · intro hne
    have key : process_frame handle_type (some et) s frame = .ok false s ∨
        process_frame handle_type (some et) s frame = .checksumError s := by
      simp only [process_frame, frame_type_of] at hne ⊢
      repeat' split
      all_goals simp_all
    constructor
    · rcases key with k | k <;> rw [k] <;> rfl
    · intro b s2 hok
      rcases key with k | k <;> rw [k] at hok
      · exact (ProcResult.ok.injEq _ _ _ _ ▸ hok).1.symm
      · exact absurd hok (by simp)
  · intro heq
    simp only [process_frame, frame_type_of] at heq ⊢
    split_ifs <;> simp_all

/-- Witness for `filter_gates_store_update`: the HeartRate frame
against a BreathRate filter. -/
theorem filter_gates_store_update_witness :
    (process_frame handle_type (some BREATH_RATE) initStore hrFrame).store =
      initStore :=
  ((filter_gates_store_update BREATH_RATE initStore hrFrame).1
    (by decide)).1

theorem packet_frame_pos (id t : Nat) (payload : List Nat)
    (h : 0 < payload.length) :
    (packet_frame id t payload).1 =
      [1, id / 256 % 256, id % 256, payload.length / 256 % 256,
        payload.length % 256, t / 256 % 256, t % 256,
        calculate_checksum [1, id / 256 % 256, id % 256,
          payload.length / 256 % 256, payload.length % 256, t / 256 % 256,
          t % 256]] ++
      (payload ++ [calculate_checksum payload]) := by
  simp [packet_frame, pack_u16_be, SOF_BYTE, h]

theorem decode_frame_shape (a b u v e f : Nat) (payload : List Nat)
    (huv : unpack_u16_be u v = payload.length) (hpos : 0 < payload.length) :
    decode_frame ([1, a, b, u, v, e, f,
        calculate_checksum [1, a, b, u, v, e, f]] ++
      (payload ++ [calculate_checksum payload])) =
      some (unpack_u16_be e f, payload) := by
  generalize hhc : calculate_checksum [1, a, b, u, v, e, f] = hc
  generalize hpc : calculate_checksum payload = pc
  set F : List Nat := [1, a, b, u, v, e, f, hc] ++ (payload ++ [pc]) with hF
  have gLen : F.length = 8 + (payload.length + 1) := by
    rw [hF]; simp; omega
  have g0 : F.getD 0 0 = 1 := rfl
  have g3 : F.getD 3 0 = u := rfl
  have g4 : F.getD 4 0 = v := rfl
  have g5 : F.getD 5 0 = e := rfl
  have g6 : F.getD 6 0 = f := rfl
  have g7 : F.getD 7 0 = hc := rfl
  have gtake : F.take 7 = [1, a, b, u, v, e, f] := rfl
  have gdrop : F.drop SIZE_FRAME_HEADER = payload ++ [pc] := rfl
  have gpc : F.getD (SIZE_FRAME_HEADER + payload.length) 0 = pc := by
    rw [hF, List.getD_append_right _ _ _ _
      (by simp [SIZE_FRAME_HEADER] : ([1, a, b, u, v, e, f, hc] : List Nat).length ≤ SIZE_FRAME_HEADER + payload.length)]
    have hidx : SIZE_FRAME_HEADER + payload.length -
        ([1, a, b, u, v, e, f, hc] : List Nat).length = payload.length := by
      simp [SIZE_FRAME_HEADER]
    rw [hidx, List.getD_append_right _ _ _ _ (Nat.le_refl _)]
    simp
  have gdata : (payload ++ [pc]).take payload.length = payload :=
    List.take_left' rfl
  simp only [decode_frame, process_frame, g0, g3, g4, g5, g6, g7, gtake,
    gdrop, gLen, huv, gpc]
  rw [if_neg (by simp only [SIZE_FRAME_HEADER]; omega)]
  rw [if_neg (by simp [SOF_BYTE])]
  rw [if_neg (by simp only [SIZE_FRAME_HEADER, SIZE_DATA_CKSUM]; omega)]
  rw [if_neg (fun hne => hne hhc)]
  rw [if_pos hpos, gdata]
  rw [if_neg (fun hcon => hcon.2 hpc)]
  rw [if_neg (by simp)]
  rfl

/-- C2 counterexample: for a zero-length payload the encoder emits an
8-byte frame (no payload-checksum byte), but the decoder unconditionally
requires `8 + Length + 1` bytes, so it rejects the encoder's own output:
`decode(encode(HEART_RATE, [])) = none`, not `some (HEART_RATE, [])`. -/
theorem empty_payload_roundtrip_cex :
    (packet_frame 0x8000 HEART_RATE []).1.length = 8 ∧
    decode_frame (packet_frame 0x8000 HEART_RATE []).1 = none := by
  decide

/-- C2 (amended): the encoder's frame size is
`8 + Length + (Length > 0 ? 1 : 0)`, and for every supported (16-bit)
frame type and every *nonzero* payload length the decoder recovers
exactly the encoded type and payload; the decoder accepts only frames of
size `8 + Length + 1`, which for `Length = 0` differs from the encoder's
8-byte output, so the round trip holds iff the payload is nonempty. -/
theorem encode_decode_roundtrip (id t : Nat) (payload : List Nat)
    (ht : t < 65536) (hlen : payload.length < 65536) :
    (packet_frame id t payload).1.length =
      8 + payload.length + (if 0 < payload.length then 1 else 0) ∧
    (0 < payload.length →
      decode_frame (packet_frame id t payload).1 = some (t, payload)) := by
  constructor
  · by_cases h : 0 < payload.length
    · rw [packet_frame_pos id t payload h, if_pos h]
      simp
      omega
    · have h0 : payload = [] := by
        cases payload with
        | nil => rfl
        | cons x xs => simp at h
      subst h0
      simp [packet_frame, pack_u16_be, SOF_BYTE]
  · intro hpos
    rw [packet_frame_pos id t payload hpos]
    have hresult := decode_frame_shape (id / 256 % 256) (id % 256)
      (payload.length / 256 % 256) (payload.length % 256) (t / 256 % 256)
      (t % 256) payload (by simp only [unpack_u16_be]; omega) hpos
    rw [hresult]
    have : unpack_u16_be (t / 256 % 256) (t % 256) = t := by
      simp only [unpack_u16_be]; omega
    rw [this]

/-- Witness for `encode_decode_roundtrip` at the spec's concrete
HeartRate example (type 0x0A15, payload = LE bytes of 71.0). -/
theorem encode_decode_roundtrip_witness :
    decode_frame (packet_frame 0x8000 HEART_RATE [0, 0, 142, 66]).1 =
      some (HEART_RATE, [0, 0, 142, 66]) :=
  (encode_decode_roundtrip 0x8000 HEART_RATE [0, 0, 142, 66] (by decide)
    (by decide)).2 (by decide)

/-! ## Framer resynchronisation (C4) -/

/-- The declared payload length of a candidate frame (header bytes 3
and 4, big-endian), as read by both `fetch` and `_process_frame`. -/
def frame_data_len (f : List Nat) : Nat :=
  unpack_u16_be (f.getD 3 0) (f.getD 4 0)

/-- A frame the `fetch` state machine accepts in one pass: valid SOF,
declared length within the 30-byte sanity bound, total size
`8 + Length + 1`, and a valid header checksum over the first 7 bytes. -/
def well_formed_frame (f : List Nat) : Prop :=
  f.getD 0 0 = SOF_BYTE ∧
  frame_data_len f ≤ MAX_FRAME_DATA_SIZE ∧
  f.length = SIZE_FRAME_HEADER + frame_data_len f + SIZE_DATA_CKSUM ∧
  calculate_checksum (f.take 7) = f.getD 7 0

instance (f : List Nat) : Decidable (well_formed_frame f) := by
  unfold well_formed_frame
  infer_instance

theorem take_succ_getD (l : List Nat) (j : Nat) (h : j < l.length) :
    l.take (j + 1) = l.take j ++ [l.getD j 0] := by
  have hg : l.getD j 0 = l.get ⟨j, h⟩ := by
    simp [List.getD_eq_getElem?_getD, List.getElem?_eq_getElem h]
  rw [List.take_succ, List.getElem?_eq_getElem h, hg]
  rfl

theorem getD_take (l : List Nat) (i j : Nat) (h : i < j) :
    (l.take j).getD i 0 = l.getD i 0 := by
  simp [List.getD_eq_getElem?_getD, List.getElem?_take_of_lt h]

theorem fetch_step_take (f : List Nat) (hf : well_formed_frame f) (j : Nat)
    (h1 : 1 ≤ j) (h2 : j < f.length) :
    fetch_step { in_frame := true, frame_buffer := f.take j, queue := [] }
      (f.getD j 0) =
      if j + 1 < f.length then
        { in_frame := true, frame_buffer := f.take (j + 1), queue := [] }
      else { in_frame := false, frame_buffer := [], queue := [f] } := by
  obtain ⟨hsof, hmax, hlen, hck⟩ := hf
  simp only [SIZE_FRAME_HEADER, SIZE_DATA_CKSUM, frame_data_len] at hlen
  simp only [MAX_FRAME_DATA_SIZE, frame_data_len] at hmax
  have htake : f.take j ++ [f.getD j 0] = f.take (j + 1) :=
    (take_succ_getD f j h2).symm
  have hlentake : (f.take (j + 1)).length = j + 1 := by
    rw [List.length_take]
    omega
  simp only [fetch_step, htake]
  simp only [if_true]
  rw [hlentake]
  by_cases hj8 : SIZE_FRAME_HEADER ≤ j + 1
  · rw [if_pos hj8]
    simp only [SIZE_FRAME_HEADER] at hj8
    rw [getD_take f 3 (j + 1) (by omega), getD_take f 4 (j + 1) (by omega)]
    rw [if_neg (by simp only [MAX_FRAME_DATA_SIZE]; omega)]
    by_cases hend : j + 1 = f.length
    · rw [if_pos (by simp only [SIZE_FRAME_HEADER, SIZE_DATA_CKSUM]; omega)]
      have hfull : f.take (j + 1) = f := by
        rw [hend]
        exact List.take_length f
      rw [hfull]
      rw [if_pos hck]
      rw [if_neg (by omega)]
      simp [enqueue, MAX_QUEUE_SIZE]
    · rw [if_neg (by simp only [SIZE_FRAME_HEADER, SIZE_DATA_CKSUM]; omega)]
      rw [if_pos (by omega)]
  · rw [if_neg hj8]
    simp only [SIZE_FRAME_HEADER] at hj8
    rw [if_pos (by omega)]

theorem fetch_accumulate (f : List Nat) (hf : well_formed_frame f) :
    ∀ j, 1 ≤ j → j < f.length →
    fetch_bytes { } (f.take j) =
      { in_frame := true, frame_buffer := f.take j, queue := [] } := by
  intro j
  induction j with
  | zero => intro h; omega
  | succ k ih =>
    intro _ h2
    by_cases hk : k = 0
    · subst hk
      have ht1 : f.take 1 = [f.getD 0 0] := by
        have h0 : (0 : Nat) < f.length := by omega
        simpa using take_succ_getD f 0 h0
      rw [ht1, hf.1]
      simp [fetch_bytes, fetch_step, SOF_BYTE, ht1, hf.1]
    · have hk1 : 1 ≤ k := by omega
      have hk2 : k < f.length := by omega
      calc fetch_bytes { } (f.take (k + 1))
          = fetch_bytes { } (f.take k ++ [f.getD k 0]) := by
            rw [take_succ_getD f k hk2]
        _ = fetch_step (fetch_bytes { } (f.take k)) (f.getD k 0) := by
            simp [fetch_bytes]
        _ = fetch_step ⟨true, f.take k, []⟩ (f.getD k 0) := by
            rw [ih hk1 hk2]
        _ = ⟨true, f.take (k + 1), []⟩ := by
            rw [fetch_step_take f hf k hk1 hk2, if_pos (by omega)]

theorem fetch_whole_frame (f : List Nat) (hf : well_formed_frame f) :
    fetch_bytes { } f =
      { in_frame := false, frame_buffer := [], queue := [f] } := by
  have hL : 9 ≤ f.length := by
    have := hf.2.2.1
    simp only [SIZE_FRAME_HEADER, SIZE_DATA_CKSUM] at this
    omega
  obtain ⟨m, hm⟩ : ∃ m, f.length = m + 1 := ⟨f.length - 1, by omega⟩
  have h1 : 1 ≤ m := by omega
  have h2 : m < f.length := by omega
  calc fetch_bytes { } f
      = fetch_bytes { } (f.take (m + 1)) := by
        rw [← hm, List.take_length]
    _ = fetch_step (fetch_bytes { } (f.take m)) (f.getD m 0) := by
        rw [take_succ_getD f m h2]
        simp [fetch_bytes]
    _ = fetch_step ⟨true, f.take m, []⟩ (f.getD m 0) := by
        rw [fetch_accumulate f hf m h1 h2]
    _ = ⟨false, [], [f]⟩ := by
        rw [fetch_step_take f hf m h1 h2, if_neg (by omega)]

/-- C4 counterexample: seven noise bytes `[1, 0, 0, 0, 0, 0, 0]`
followed by a well-formed HeartRate frame queue *zero* frames, not one:
the noise byte 0x01 opens a false candidate that swallows the real
frame's first two bytes before the header checksum rejects it, so the
real frame's start marker is missed — the claim fails for arbitrary
noise. -/
theorem resync_arbitrary_noise_cex :
    well_formed_frame hrFrame ∧
    fetch_bytes { } ([1, 0, 0, 0, 0, 0, 0] ++ hrFrame) =
      { in_frame := false, frame_buffer := [], queue := [] } := by
  constructor
  · decide
  · decide

/-- C4 (amended): if the noise alone leaves the framer back in its
initial `SeekingStart` state with nothing queued (as any noise free of
the 0x01 start marker does), then noise followed by one well-formed
frame queues exactly that frame and the machine ends in `SeekingStart`
with an empty accumulation buffer; no case of the state machine is
stuck or partial. -/
theorem resync_noise_then_frame (noise f : List Nat)
    (hf : well_formed_frame f)
    (hnoise : fetch_bytes { } noise = { }) :
    fetch_bytes { } (noise ++ f) =
      { in_frame := false, frame_buffer := [], queue := [f] } := by
  have happ : fetch_bytes { } (noise ++ f) =
      fetch_bytes (fetch_bytes { } noise) f := by
    simp [fetch_bytes]
  rw [happ, hnoise]
  exact fetch_whole_frame f hf

/-- Witness for `resync_noise_then_frame`: marker-free noise followed by
the concrete HeartRate frame. -/
theorem resync_noise_then_frame_witness :
    fetch_bytes { } ([0, 255, 7] ++ hrFrame) =
      { in_frame := false, frame_buffer := [], queue := [hrFrame] } :=
  resync_noise_then_frame [0, 255, 7] hrFrame (by decide) (by decide)

end MmWave
